import Mathlib

/-!
Shallow embedding of the orchestration core of the ec2-patching-workflow
repository, together with theorems settling the frozen claims about it.

Modules embedded (from the Python sources):
* `src/terraform/hub/lambda/PollSsmCommand.py` — `analyze_command_status`
* `src/lambda/PostEC2Verify.py` — `analyze_patch_states`, `validate_input`,
  `process_account_region`, `handler`
* `src/lambda/SendSsmCommand.py` — `handler`
* `src/lambda/ApprovalAuthorizer.py` — `handler` (signature verification)

Conventions: Python dicts become structures; keys that a code path may leave
absent become `Option` fields; Python exceptions become `Except` results;
AWS calls are abstracted as explicit function parameters, and the requests a
handler would issue are returned as an effect list so that "no remote call
was made" is expressible.  Python's `round(x, n)` (banker's rounding on
binary floats) is modelled as exact rational rounding; no claim depends on
a half-way rounding case.
-/

/-! ## PollSsmCommand.py : analyze_command_status -/

/-- One SSM command invocation record as consumed by `analyze_command_status`
(fields read via `inv.get(...)` in the source; `Status` defaults to
"Unknown" there, so an absent status is represented by that string). -/
structure Invocation where
  Status : String
  InstanceId : String
  StatusDetails : String := ""
  StandardOutputUrl : String := ""
  StandardErrorUrl : String := ""
  RequestedDateTime : String := ""
  ResponseFinishDateTime : String := ""
deriving Repr, DecidableEq

/-- `completed_statuses = {'Success', 'Cancelled', 'Failed', 'TimedOut'}`. -/
def completedStatuses : List String := ["Success", "Cancelled", "Failed", "TimedOut"]

/-- `running_statuses = {'InProgress', 'Pending', 'Delayed'}`. -/
def runningStatuses : List String := ["InProgress", "Pending", "Delayed"]

/-- The list tested by `elif status in ['Failed', 'TimedOut', 'Cancelled']`. -/
def failedStatuses : List String := ["Failed", "TimedOut", "Cancelled"]

/-- The seven documented invocation status values (spec §3, Invocation). -/
def definedStatuses : List String :=
  ["Pending", "Delayed", "InProgress", "Success", "Failed", "Cancelled", "TimedOut"]

/-- `total_instances = len(invocations)`. -/
def totalInstances (invocations : List Invocation) : Nat := invocations.length

/-- `completed_instances`: how many invocations have a status in
`completed_statuses`. -/
def completedCount (invocations : List Invocation) : Nat :=
  invocations.countP (fun inv => decide (inv.Status ∈ completedStatuses))

/-- `in_progress_instances`: how many invocations have a status in
`running_statuses`. -/
def inProgressCount (invocations : List Invocation) : Nat :=
  invocations.countP (fun inv => decide (inv.Status ∈ runningStatuses))

/-- `successful_instances`: how many invocations have status `Success`. -/
def successCount (invocations : List Invocation) : Nat :=
  invocations.countP (fun inv => decide (inv.Status = "Success"))

/-- `failed_instances`: how many invocations have a status in
`['Failed', 'TimedOut', 'Cancelled']`. -/
def failedCount (invocations : List Invocation) : Nat :=
  invocations.countP (fun inv => decide (inv.Status ∈ failedStatuses))

/-- `all_done = (completed_instances == total_instances) and total_instances > 0`. -/
def allDoneB (invocations : List Invocation) : Bool :=
  decide (completedCount invocations = totalInstances invocations ∧
    0 < totalInstances invocations)

/-- `success_rate = (successful_instances / total_instances * 100) if total_instances > 0 else 0`. -/
def rawSuccessRate (invocations : List Invocation) : ℚ :=
  if 0 < totalInstances invocations then
    (successCount invocations : ℚ) / (totalInstances invocations : ℚ) * 100
  else 0

/-- `failure_rate = (failed_instances / total_instances * 100) if total_instances > 0 else 0`. -/
def rawFailureRate (invocations : List Invocation) : ℚ :=
  if 0 < totalInstances invocations then
    (failedCount invocations : ℚ) / (totalInstances invocations : ℚ) * 100
  else 0

/-- The `overall_status` if-chain of `analyze_command_status`. -/
def overallStatus (invocations : List Invocation) : String :=
  if allDoneB invocations then
    if 50 < rawFailureRate invocations then "MAJORITY_FAILED"
    else if 20 < rawFailureRate invocations then "HIGH_FAILURE_RATE"
    else if 0 < rawFailureRate invocations then "COMPLETED_WITH_FAILURES"
    else "ALL_SUCCESS"
  else
    if 0 < inProgressCount invocations then "IN_PROGRESS"
    else "UNKNOWN"

/-- Rational model of Python `round(x, 1)`. -/
def round1 (q : ℚ) : ℚ := ((round (q * 10) : ℤ) : ℚ) / 10

/-- Rational model of Python `round(x, 2)`. -/
def round2 (q : ℚ) : ℚ := ((round (q * 100) : ℤ) : ℚ) / 100

/-- One increment of the `status_counts` dict:
`status_counts[status] = status_counts.get(status, 0) + 1`
(insertion-ordered association list, as a Python dict is). -/
def bumpCount (counts : List (String × Nat)) (s : String) : List (String × Nat) :=
  match counts with
  | [] => [(s, 1)]
  | (k, v) :: rest => if k = s then (k, v + 1) :: rest else (k, v) :: bumpCount rest s

/-- The `status_counts` dict accumulated over the loop. -/
def statusCountsOf (invocations : List Invocation) : List (String × Nat) :=
  invocations.foldl (fun c inv => bumpCount c inv.Status) []

/-- One entry of `detailed_results`. -/
structure DetailedResult where
  instance_id : String
  status : String
  status_details : String
  standard_output_url : String
  standard_error_url : String
  start_time : String
  end_time : String
deriving Repr, DecidableEq

/-- The per-invocation record appended to `detailed_results`. -/
def detailedOf (inv : Invocation) : DetailedResult :=
  { instance_id := inv.InstanceId
    status := inv.Status
    status_details := inv.StatusDetails
    standard_output_url := inv.StandardOutputUrl
    standard_error_url := inv.StandardErrorUrl
    start_time := inv.RequestedDateTime
    end_time := inv.ResponseFinishDateTime }

/-- The dict returned by `analyze_command_status`.  Keys that the
empty-invocations early return does not include are `Option` fields
(`none` = key absent from the returned dict). -/
structure CommandStatusResult where
  all_done : Bool
  status : String
  summary : String
  total_instances : Nat
  completed_instances : Nat
  in_progress_instances : Option Nat
  successful_instances : Option Nat
  failed_instances : Option Nat
  success_rate : Option ℚ
  failure_rate : Option ℚ
  status_counts : Option (List (String × Nat))
  should_continue_polling : Bool
  detailed_results : Option (List DetailedResult)
  reason : String
  command_id : Option String
deriving Repr

/-- The `summary` message of `analyze_command_status`. -/
def pollSummary (invocations : List Invocation) : String :=
  if allDoneB invocations then
    if overallStatus invocations = "ALL_SUCCESS" then
      "All " ++ toString (totalInstances invocations) ++ " instances completed successfully"
    else
      "Completed: " ++ toString (successCount invocations) ++ " successful, " ++
        toString (failedCount invocations) ++ " failed out of " ++
        toString (totalInstances invocations) ++ " instances"
  else
    "In progress: " ++ toString (completedCount invocations) ++ "/" ++
      toString (totalInstances invocations) ++ " instances completed"

/-- The `reason` message of `analyze_command_status`. -/
def pollReason (invocations : List Invocation) : String :=
  if allDoneB invocations then "All instances have completed execution"
  else toString (inProgressCount invocations) ++ " instances still running"

/-- `analyze_command_status(invocations, command_id)` from
`src/terraform/hub/lambda/PollSsmCommand.py` (lines 184–288). -/
def analyze_command_status (invocations : List Invocation) (command_id : String) :
    CommandStatusResult :=
  if invocations = [] then
    { all_done := false
      status := "NO_INVOCATIONS"
      summary := "No command invocations found"
      total_instances := 0
      completed_instances := 0
      in_progress_instances := none
      successful_instances := none
      failed_instances := none
      success_rate := none
      failure_rate := none
      status_counts := none
      should_continue_polling := true
      detailed_results := none
      reason := "No invocations detected yet - command may still be starting"
      command_id := none }
  else
    { all_done := allDoneB invocations
      status := overallStatus invocations
      summary := pollSummary invocations
      total_instances := totalInstances invocations
      completed_instances := completedCount invocations
      in_progress_instances := some (inProgressCount invocations)
      successful_instances := some (successCount invocations)
      failed_instances := some (failedCount invocations)
      success_rate := some (round1 (rawSuccessRate invocations))
      failure_rate := some (round1 (rawFailureRate invocations))
      status_counts := some (statusCountsOf invocations)
      should_continue_polling := !allDoneB invocations
      detailed_results := some ((invocations.map detailedOf).take 10)
      reason := pollReason invocations
      command_id := some command_id }

/-- The failed fraction reported by a poll result: reported failed
instances (absent read as zero) over reported total instances. -/
def failedFraction (r : CommandStatusResult) : ℚ :=
  ((r.failed_instances.getD 0 : Nat) : ℚ) / ((r.total_instances : Nat) : ℚ)

/-- Sample invocation list: one success, one still running, one failed. -/
def pollSampleInvs : List Invocation :=
  [{ Status := "Success", InstanceId := "i-a" },
   { Status := "InProgress", InstanceId := "i-b" },
   { Status := "Failed", InstanceId := "i-c" }]

/-- Sample invocation list in which two of three invocations have failed
but one is still in progress. -/
def pollStuckInvs : List Invocation :=
  [{ Status := "Failed", InstanceId := "i-1" },
   { Status := "Failed", InstanceId := "i-2" },
   { Status := "InProgress", InstanceId := "i-3" }]

/-! ## PostEC2Verify.py : analyze_patch_states -/

/-- One `InstancePatchState` record as consumed by `analyze_patch_states`
(fields read via `state.get(...)`; the `.get` defaults of the source are the
structure's default values). Counts are integers as in Python. -/
structure PatchState where
  InstanceId : String := "unknown"
  MissingCount : Int := 0
  FailedCount : Int := 0
  NotApplicableCount : Int := 0
  InstalledCount : Int := 0
  InstalledOtherCount : Int := 0
  InstalledPendingRebootCount : Int := 0
  Operation : String := "Unknown"
  OperationStartTime : String := "Unknown"
  OperationEndTime : String := "Unknown"
deriving Repr, DecidableEq

/-- The `issue_detail` dict appended to `issues_found`. -/
structure IssueDetail where
  instance_id : String
  missing_count : Int
  failed_count : Int
  installed_count : Int
  installed_pending_reboot : Int
  operation : String
  operation_start : String
  operation_end : String
  severity : String
deriving Repr, DecidableEq

/-- `has_issues = missing_count > 0 or failed_count > 0` for one state. -/
def hasIssues (s : PatchState) : Bool :=
  decide (0 < s.MissingCount ∨ 0 < s.FailedCount)

/-- The `issue_detail` built for a state that has issues, with
`severity = 'high' if failed_count > 0 else 'medium'`. -/
def issueOf (s : PatchState) : IssueDetail :=
  { instance_id := s.InstanceId
    missing_count := s.MissingCount
    failed_count := s.FailedCount
    installed_count := s.InstalledCount
    installed_pending_reboot := s.InstalledPendingRebootCount
    operation := s.Operation
    operation_start := s.OperationStartTime
    operation_end := s.OperationEndTime
    severity := if 0 < s.FailedCount then "high" else "medium" }

/-- The `issues_found` list accumulated by the per-instance loop of
`analyze_patch_states`: an issue detail for each state with issues, in
input order. -/
def issuesFound (patch_states : List PatchState) : List IssueDetail :=
  patch_states.filterMap fun s => if hasIssues s then some (issueOf s) else none

/-- The dict returned by `analyze_patch_states`. -/
structure PatchAnalysis where
  total_instances : Nat
  healthy_instances : Nat
  problematic_instances : Nat
  issues_found : List IssueDetail
  success_rate : ℚ
  analysis : String
deriving Repr

/-- The `analysis` summary string of `analyze_patch_states`. -/
def analysisText (patch_states : List PatchState) : String :=
  let total_instances := patch_states.length
  let issues_found := issuesFound patch_states
  let problematic_instances := issues_found.length
  if problematic_instances = 0 then
    "All " ++ toString total_instances ++ " instances patched successfully"
  else
    let high_severity := issues_found.countP (fun issue => decide (issue.severity = "high"))
    let medium_severity := problematic_instances - high_severity
    let parts := [toString problematic_instances ++ "/" ++ toString total_instances ++
      " instances have issues"]
    let parts := if 0 < high_severity then
      parts ++ [toString high_severity ++ " with failed patches"] else parts
    let parts := if 0 < medium_severity then
      parts ++ [toString medium_severity ++ " with missing patches"] else parts
    String.intercalate "; " parts

/-- `analyze_patch_states(patch_states)` from `src/lambda/PostEC2Verify.py`
(lines 197–269).  The empty-list early return performs no division at all;
the non-empty branch guards its division with `if total_instances > 0`. -/
def analyze_patch_states (patch_states : List PatchState) : PatchAnalysis :=
  if patch_states = [] then
    { total_instances := 0
      healthy_instances := 0
      problematic_instances := 0
      issues_found := []
      success_rate := 0
      analysis := "No instances found" }
  else
    let total_instances := patch_states.length
    let issues_found := issuesFound patch_states
    let healthy_instances := total_instances - issues_found.length
    let problematic_instances := issues_found.length
    let success_rate : ℚ :=
      if 0 < total_instances then (healthy_instances : ℚ) / (total_instances : ℚ) * 100
      else 0
    { total_instances := total_instances
      healthy_instances := healthy_instances
      problematic_instances := problematic_instances
      issues_found := issues_found
      success_rate := round2 success_rate
      analysis := analysisText patch_states }

/-! ## SendSsmCommand.py : handler -/

/-- One entry of the `targets` list of the dispatch event. -/
structure SsmTarget where
  Key : String
  Values : List String
deriving Repr, DecidableEq

/-- The dispatch handler's event dict (absent keys are `none`). -/
structure SendEvent where
  roleArn : Option String := none
  externalId : Option String := none
  region : Option String := none
  documentName : Option String := none
  targets : Option (List SsmTarget) := none
  maxConcurrency : Option String := none
  maxErrors : Option String := none
  parameters : Option (List (String × List String)) := none
  outputS3Bucket : Option String := none
  outputS3Prefix : Option String := none
deriving Repr

/-- The parameters `_assume` passes to `sts.assume_role`; `ExternalId`
is included only when `external_id` is truthy (non-empty). -/
structure AssumeRoleParams where
  RoleArn : String
  RoleSessionName : String
  DurationSeconds : Nat
  ExternalId : Option String
deriving Repr, DecidableEq

/-- The `params` dict built by `_assume(role_arn, external_id)`. -/
def assumeParams (role_arn external_id : String) : AssumeRoleParams :=
  { RoleArn := role_arn
    RoleSessionName := "ec2-patch-send-ssm"
    DurationSeconds := 3600
    ExternalId := if external_id = "" then none else some external_id }

/-- The kwargs `_send_command` passes to `ssm.send_command`; the optional
keys are included only when their value is truthy. -/
structure SendCommandKwargs where
  DocumentName : String
  Targets : List SsmTarget
  MaxConcurrency : String
  MaxErrors : String
  Parameters : Option (List (String × List String))
  OutputS3BucketName : Option String
  OutputS3KeyPrefix : Option String
deriving Repr, DecidableEq

/-- The `kwargs` dict built by `_send_command`. -/
def sendCommandKwargs (document_name : String) (targets : List SsmTarget)
    (max_concurrency max_errors : String)
    (parameters : Option (List (String × List String)))
    (output_s3_bucket : Option String) ( output_s3_prefix : Option String) :
    SendCommandKwargs :=
  { DocumentName := document_name
    Targets := targets
    MaxConcurrency := max_concurrency
    MaxErrors := max_errors
    Parameters := match parameters with
      | some ps => if ps = [] then none else some ps
      | none => none
    OutputS3BucketName := match output_s3_bucket with
      | some b => if b = "" then none else some b
      | none => none
    OutputS3KeyPrefix := match output_s3_prefix with
      | some p => if p = "" then none else some p
      | none => none }

/-- An AWS request the dispatch handler issues, in order. -/
inductive SsmEffect where
  | assumeRole (params : AssumeRoleParams)
  | sendCommand (kwargs : SendCommandKwargs)
deriving Repr, DecidableEq

/-- The dict returned by the dispatch handler on success. -/
structure SendOutput where
  CommandId : Option String
  Region : String
  Account : String
deriving Repr, DecidableEq

/-- `handler(event, context)` from `src/lambda/SendSsmCommand.py`
(lines 76–133): the AWS calls are returned as an effect list, and
`commandId` stands for the `CommandId` the SSM response would carry.
The `ValueError` raise is the `Except.error` branch.  `Account` is
element 4 of the colon-split role ARN (absent element modelled as "",
where Python would raise `IndexError`; no claim concerns malformed ARNs). -/
def sendSsmHandler (event : SendEvent) (commandId : Option String) :
    List SsmEffect × Except String SendOutput :=
  let role_arn := (event.roleArn).getD ""
  let external_id := (event.externalId).getD ""
  let region := (event.region).getD ""
  let document_name := (event.documentName).getD "AWS-RunPatchBaseline"
  let targets := (event.targets).getD []
  let max_conc := (event.maxConcurrency).getD "10%"
  let max_err := (event.maxErrors).getD "1"
  if role_arn = "" ∨ region = "" then
    ([], Except.error "roleArn and region are required")
  else
    let ar := assumeParams role_arn external_id
    let sr := sendCommandKwargs document_name targets max_conc max_err
      event.parameters event.outputS3Bucket (SendEvent.outputS3Prefix event)
    ([SsmEffect.assumeRole ar, SsmEffect.sendCommand sr],
      Except.ok
        { CommandId := commandId
          Region := region
          Account := ((role_arn.splitOn ":").get? 4).getD "" })

/-- The send-command request among a list of effects, if any. -/
def sentKwargs (effects : List SsmEffect) : Option SendCommandKwargs :=
  effects.findSome? fun e => match e with
    | SsmEffect.sendCommand k => some k
    | SsmEffect.assumeRole _ => none

/-- A minimal well-formed dispatch event that omits every optional key. -/
def c6Event : SendEvent :=
  { roleArn := some "arn:aws:iam::123456789012:role/PatchExecRole"
    region := some "us-east-1" }

/-! ## PostEC2Verify.py : validate_input, process_account_region, handler -/

/-- Python `str.isdigit()` on ASCII digit strings: non-empty and all
digits. -/
def pyIsDigit (s : String) : Bool := !(s = "") && s.toList.all Char.isDigit

/-- The account-id format check of the validation loop: a string of digits
of length 12 (`account.isdigit() and len(account) == 12`). -/
def isValidAccountId (a : String) : Bool := pyIsDigit a && decide (a.length = 12)

/-- The verify handler's event dict (absent keys are `none`). -/
structure VerifyEvent where
  accounts : Option (List String) := none
  regions : Option (List String) := none
  executionId : Option String := none
deriving Repr

/-- The process environment variables `validate_input` reads. -/
structure VerifyEnv where
  S3_BUCKET : Option String := none
  DDB_TABLE : Option String := none
  AWS_REGION : Option String := none
deriving Repr

/-- The dict `validate_input` returns on success. -/
structure ValidatedInput where
  accounts : List String
  regions : List String
  bucket_name : String
  ddb_table : String
  execution_id : String
deriving Repr, DecidableEq

/-- `validate_input(event)` from `src/lambda/PostEC2Verify.py`
(lines 75–110).  A raised `PostVerificationError` is the `Except.error`
branch; `now` stands for `int(time.time())` in the default execution id.
The account-format loop raises at the first invalid account, which is the
first element `find?` locates.  Note that `regions` is NOT required: when
absent it falls back to `[AWS_REGION or 'us-east-1']`. -/
def validate_input (event : VerifyEvent) (env : VerifyEnv) (now : Nat) :
    Except String ValidatedInput :=
  let accounts := (event.accounts).getD []
  if accounts = [] then Except.error "Missing or invalid accounts list"
  else
    match accounts.find? (fun a => !isValidAccountId a) with
    | some a => Except.error ("Invalid account ID format: " ++ a)
    | none =>
      let regions := (event.regions).getD [env.AWS_REGION.getD "us-east-1"]
      if env.S3_BUCKET.getD "" = "" then
        Except.error "S3_BUCKET environment variable not set"
      else if env.DDB_TABLE.getD "" = "" then
        Except.error "DDB_TABLE environment variable not set"
      else
        Except.ok
          { accounts := accounts
            regions := regions
            bucket_name := env.S3_BUCKET.getD ""
            ddb_table := env.DDB_TABLE.getD ""
            execution_id := (event.executionId).getD ("exec-" ++ toString now) }

/-- A Python exception value: its class name and message. -/
structure PyExc where
  name : String
  message : String
deriving Repr, DecidableEq

/-- The result dict of `process_account_region` (S3 url, metric emission
and the truncated `issues` echo are not modelled; `s3_key` is kept since
the handler copies it into the overall issue list). -/
structure TargetResult where
  account : String
  region : String
  success : Bool
  analysis : Option PatchAnalysis
  s3_key : Option String
  error : Option String
  error_type : Option String
deriving Repr

/-- `process_account_region(account, region, ...)` from
`src/lambda/PostEC2Verify.py` (lines 345–461).  `pipeline account region`
abstracts the try-block's AWS work (role assumption, patch-state
retrieval, S3/DynamoDB storage): `Except.ok` yields the retrieved patch
states, `Except.error` stands for any exception raised inside the try
block, which the except-branch converts into a failure result dict.
`today` is the UTC date used in the storage key. -/
def process_account_region
    (pipeline : String → String → Except PyExc (List PatchState))
    (today : String) (account region : String) : TargetResult :=
  match pipeline account region with
  | Except.ok patch_states =>
    { account := account
      region := region
      success := true
      analysis := some (analyze_patch_states patch_states)
      s3_key := some (today ++ "/" ++ account ++ "/" ++ region ++
        "/post_ec2_patchstates.json")
      error := none
      error_type := none }
  | Except.error e =>
    { account := account
      region := region
      success := false
      analysis := none
      s3_key := none
      error := some e.message
      error_type := some e.name }

/-- One entry of the handler's `overall_issues` list. -/
structure OverallIssue where
  account : String
  region : String
  count : Nat
  s3_key : Option String
deriving Repr

/-- The handler's `summary` dict. -/
structure VerifySummary where
  total_processes : Nat
  successful_processes : Nat
  failed_processes : Nat
  total_instances : Nat
  problematic_instances : Nat
  overall_success_rate : ℚ
deriving Repr

/-- The verify handler's response dict (keys absent on some paths are
`Option` fields). -/
structure VerifyResponse where
  statusCode : Nat
  hasIssues : Bool
  issues : List OverallIssue
  summary : Option VerifySummary
  results : List TargetResult
  error : Option String
  error_type : Option String
  execution_id : Option String
deriving Repr

/-- `handler(event, context)` from `src/lambda/PostEC2Verify.py`
(lines 463–540): validates input, then processes every account × region
pair in order, accumulating each pair's result; instance totals and the
overall issue list are taken from successful results (exactly those whose
result carries an analysis).  The catch-all 500 branch is not modelled:
the modelled body is total. -/
def postVerifyHandler (event : VerifyEvent) (env : VerifyEnv) (now : Nat)
    (today : String)
    (pipeline : String → String → Except PyExc (List PatchState)) :
    VerifyResponse :=
  match validate_input event env now with
  | Except.error e =>
    { statusCode := 400
      hasIssues := true
      issues := []
      summary := none
      results := []
      error := some e
      error_type := some "PostVerificationError"
      execution_id := none }
  | Except.ok v =>
    let results := v.accounts.flatMap fun account =>
      v.regions.map fun region => process_account_region pipeline today account region
    let successful_processes := results.countP (fun r => r.success)
    let failed_processes := results.length - successful_processes
    let analyses := results.filterMap fun r => r.analysis
    let total_instances : Nat := (analyses.map fun a => a.total_instances).sum
    let total_problematic : Nat := (analyses.map fun a => a.problematic_instances).sum
    let overall_issues := results.filterMap fun r =>
      match r.analysis with
      | some a =>
        if 0 < a.problematic_instances then
          some { account := r.account
                 region := r.region
                 count := a.problematic_instances
                 s3_key := r.s3_key }
        else none
      | none => none
    let overall_success_rate : ℚ :=
      if 0 < total_instances then
        ((total_instances : ℚ) - (total_problematic : ℚ)) / (total_instances : ℚ) * 100
      else 100
    { statusCode := 200
      hasIssues := !overall_issues.isEmpty
      issues := overall_issues
      summary := some
        { total_processes := results.length
          successful_processes := successful_processes
          failed_processes := failed_processes
          total_instances := total_instances
          problematic_instances := total_problematic
          overall_success_rate := round2 overall_success_rate }
      results := results
      error := none
      error_type := none
      execution_id := some v.execution_id }

/-- An event with a valid accounts list but no regions key. -/
def c7Event : VerifyEvent := { accounts := some ["123456789012"] }

/-- An environment with the two required variables set. -/
def c7Env : VerifyEnv := { S3_BUCKET := some "bucket", DDB_TABLE := some "table" }

/-- An event whose accounts list holds a malformed (5-digit) account id. -/
def c7BadEvent : VerifyEvent :=
  { accounts := some ["12345"], regions := some ["us-east-1"] }

/-- A two-account event whose second target's pipeline fails. -/
def c8Event : VerifyEvent :=
  { accounts := some ["123456789012", "210987654321"], regions := some ["us-east-1"] }

/-- A pipeline that succeeds with no instances for the first account and
raises for every other account. -/
def c8Pipeline (account : String) (_region : String) :
    Except PyExc (List PatchState) :=
  if account = "123456789012" then Except.ok []
  else Except.error { name := "PostVerificationError", message := "Access denied" }

/-- The validated input of `c8Event` under `c7Env`. -/
def c8Validated : ValidatedInput :=
  { accounts := ["123456789012", "210987654321"]
    regions := ["us-east-1"]
    bucket_name := "bucket"
    ddb_table := "table"
    execution_id := "exec-0" }

/-! ## ApprovalAuthorizer.py and SendApprovalRequest.py : signed links -/

/-- Python `str.strip()`: drop whitespace from both ends (character-level
model, kernel-computable unlike `String.trim`). -/
def pyStrip (s : String) : String :=
  (((s.toList.dropWhile fun c => c.isWhitespace).reverse.dropWhile
    fun c => c.isWhitespace).reverse).asString

/-- Digit-string to number, `none` when empty or not all digits. -/
def parseNatDigits (l : List Char) : Option Nat :=
  if l = [] then none
  else if l.all Char.isDigit then
    some (l.foldl (fun acc c => acc * 10 + (c.toNat - 48)) 0)
  else none

/-- Python `int(s)` on an already-stripped string: optional sign followed
by digits, `none` modelling the raised `ValueError` (underscore digit
grouping is not modelled; no caller uses it). -/
def pyInt? (s : String) : Option Int :=
  match s.toList with
  | '-' :: rest => (parseNatDigits rest).map fun n => -(n : Int)
  | '+' :: rest => (parseNatDigits rest).map fun n => (n : Int)
  | l => (parseNatDigits l).map fun n => (n : Int)

/-- `_build_canonical_string(token, timestamp, action, execution_id)` =
`f"{token}:{timestamp}:{action}:{execution_id}"`, identical in
`ApprovalAuthorizer.py` and (with an integer timestamp rendered into the
f-string) `SendApprovalRequest.py`. -/
def buildCanonicalString (token timestamp action execution_id : String) : String :=
  token ++ ":" ++ timestamp ++ ":" ++ action ++ ":" ++ execution_id

/-- The sender-side canonical string, whose timestamp is an integer. -/
def buildCanonicalStringInt (token : String) (timestamp : Int)
    (action execution_id : String) : String :=
  buildCanonicalString token (toString timestamp) action execution_id

/-- `_sign(canonical, secret)` from `SendApprovalRequest.py`; `mac` stands
for `hmac.new(secret, message, hashlib.sha256).hexdigest()` (the HMAC-SHA256
primitive lives in Python's standard library, not in this repository, so it
is a parameter of the model). -/
def signCanonical (mac : String → String → String) (canonical secret : String) :
    String :=
  mac secret canonical

/-- The query-string parameters of an approval callback request. -/
structure AuthQuery where
  sig : Option String := none
  token : Option String := none
  timestamp : Option String := none
  action : Option String := none
  executionId : Option String := none
deriving Repr

/-- The authorizer's verdict: `isAuthorized` plus the context echoed on
success. -/
structure AuthResult where
  isAuthorized : Bool
  action : Option String := none
  executionId : Option String := none
deriving Repr, DecidableEq

/-- `handler(event, context)` from `src/lambda/ApprovalAuthorizer.py`
(lines 41–66): reject when any of sig/token/timestamp/action is blank
after stripping, when the timestamp does not parse as an integer, when
`abs(now - timestamp)` exceeds `max_age_minutes * 60`, or when the
recomputed signature differs from `sig`; otherwise authorize.
`now` stands for `int(time.time())`; `max_age_minutes` for the
`APPROVAL_EXPIRY_MINUTES` environment value (default 60); `secret` for the
cached signing secret; `_const_eq` is digest-string equality (its
constant-time property concerns timing only, which has no model here). -/
def approvalAuthorizer (mac : String → String → String) (secret : String)
    (now max_age_minutes : Int) (q : AuthQuery) : AuthResult :=
  if pyStrip (q.sig.getD "") = "" ∨ pyStrip (q.token.getD "") = "" ∨
      pyStrip (q.timestamp.getD "") = "" ∨ pyStrip (q.action.getD "") = "" then
    { isAuthorized := false }
  else
    match pyInt? (pyStrip (q.timestamp.getD "")) with
    | none => { isAuthorized := false }
    | some ts_int =>
      if max_age_minutes * 60 < |now - ts_int| then { isAuthorized := false }
      else
        if ¬(mac secret (buildCanonicalString (pyStrip (q.token.getD ""))
            (pyStrip (q.timestamp.getD "")) (pyStrip (q.action.getD ""))
            (pyStrip (q.executionId.getD ""))) = pyStrip (q.sig.getD "")) then
          { isAuthorized := false }
        else
          { isAuthorized := true
            action := some (pyStrip (q.action.getD ""))
            executionId := some (if pyStrip (q.executionId.getD "") = "" then
              "unknown" else pyStrip (q.executionId.getD "")) }

/-- The query parameters embedded in a signed approval link built by
`create_approval_links` in `SendApprovalRequest.py` (lines 117–132), for
the secret-present branch; the URL-escaping of the token in the literal
URL is undone by the HTTP layer before the authorizer sees it. -/
def createApprovalLinkQuery (mac : String → String → String) (secret : String)
    (task_token : String) (timestamp : Int) (action execution_id : String) :
    AuthQuery :=
  { sig := some (signCanonical mac
      (buildCanonicalStringInt task_token timestamp action execution_id) secret)
    token := some task_token
    timestamp := some (toString timestamp)
    action := some action
    executionId := some execution_id }

/-- A concrete stand-in keyed hash for witnesses. -/
def macConcat (secret msg : String) : String := secret ++ "|" ++ msg

/-- A concrete signed approve link built by the sender model. -/
def c3Query : AuthQuery :=
  createApprovalLinkQuery macConcat "sekrit" "tok" 1000 "approve" "exec-1"

/-! ## Theorems -/

/-- A status is in the code's `completed_statuses` set exactly when it is in
the spec's terminal-status set {Success, Failed, Cancelled, TimedOut}. -/
theorem mem_completed_iff_terminal (s : String) :
    s ∈ completedStatuses ↔ s ∈ ["Success", "Failed", "Cancelled", "TimedOut"] := by
  simp only [completedStatuses, List.mem_cons, List.not_mem_nil, or_false]
  tauto

/-- C2: the poll result's `all_done` flag is true iff the invocation list is
non-empty and every invocation's status is terminal, with
{Success, Failed, Cancelled, TimedOut} the terminal statuses. -/
theorem poll_all_done_iff_terminal (invs : List Invocation) (cid : String) :
    (analyze_command_status invs cid).all_done = true ↔
      invs ≠ [] ∧ ∀ inv ∈ invs,
        inv.Status ∈ ["Success", "Failed", "Cancelled", "TimedOut"] := by
  by_cases h : invs = []
  · subst h
    simp [analyze_command_status]
  · simp only [analyze_command_status, if_neg h]
    unfold allDoneB totalInstances completedCount
    rw [decide_eq_true_iff]
    constructor
    · rintro ⟨hc, _⟩
      refine ⟨h, fun inv hinv => ?_⟩
      have hp := List.countP_eq_length.mp hc inv hinv
      rw [decide_eq_true_iff] at hp
      exact (mem_completed_iff_terminal inv.Status).mp hp
    · rintro ⟨-, hall⟩
      refine ⟨List.countP_eq_length.mpr fun inv hinv => ?_, List.length_pos.mpr h⟩
      rw [decide_eq_true_iff]
      exact (mem_completed_iff_terminal inv.Status).mpr (hall inv hinv)

/-- The accumulated issue list is the issue detail of each problematic
state, in order. -/
theorem issuesFound_eq_filter_map (ps : List PatchState) :
    issuesFound ps = (ps.filter hasIssues).map issueOf := by
  induction ps with
  | nil => rfl
  | cons s rest ih =>
    by_cases h : hasIssues s
    · simp [issuesFound, List.filterMap_cons, List.filter_cons, h] at ih ⊢
      exact ih
    · simp only [Bool.not_eq_true] at h
      simp [issuesFound, List.filterMap_cons, List.filter_cons, h] at ih ⊢
      exact ih

/-- C1 counterexample: on the empty list, `analyze_patch_states` reports a
success rate of 0, not 100 as the claim states. -/
theorem analyze_empty_success_rate_not_100 :
    (analyze_patch_states []).success_rate ≠ 100 := by
  norm_num [analyze_patch_states]

/-- C1 (amended): `analyze_patch_states([])` returns total instances = 0,
problematic instances = 0 and success rate = 0.0; the empty-list branch is
an early return that performs no division, so no division error can arise. -/
theorem analyze_empty_zero_case :
    (analyze_patch_states []).total_instances = 0 ∧
      (analyze_patch_states []).problematic_instances = 0 ∧
      (analyze_patch_states []).success_rate = 0 := by
  refine ⟨rfl, rfl, rfl⟩

/-- C4: `analyze_patch_states` registers a state as problematic exactly when
its missing count or its failed count is positive (so the problematic count
is the count of such states, and the issue of a listed state certifies it),
and assigns severity "high" when the failed count is positive and "medium"
otherwise. -/
theorem analyze_classification (ps : List PatchState) :
    (analyze_patch_states ps).problematic_instances =
        ps.countP (fun s => decide (0 < s.MissingCount ∨ 0 < s.FailedCount)) ∧
      (∀ s ∈ ps, issueOf s ∈ (analyze_patch_states ps).issues_found ↔
        (0 < s.MissingCount ∨ 0 < s.FailedCount)) ∧
      (analyze_patch_states ps).issues_found.map IssueDetail.severity =
        (ps.filter (fun s => decide (0 < s.MissingCount ∨ 0 < s.FailedCount))).map
          (fun s => if 0 < s.FailedCount then "high" else "medium") := by
  have hissues : (analyze_patch_states ps).issues_found = issuesFound ps := by
    by_cases h : ps = []
    · subst h; rfl
    · simp [analyze_patch_states, h]
  have hprob : (analyze_patch_states ps).problematic_instances = (issuesFound ps).length := by
    by_cases h : ps = []
    · subst h; rfl
    · simp [analyze_patch_states, h]
  have hpred : hasIssues = fun s : PatchState =>
      decide (0 < s.MissingCount ∨ 0 < s.FailedCount) := rfl
  refine ⟨?_, ?_, ?_⟩
  · rw [hprob, issuesFound_eq_filter_map, List.length_map, hpred,
      List.countP_eq_length_filter]
  · intro s hs
    rw [hissues]
    constructor
    · intro hmem
      rcases List.mem_filterMap.mp hmem with ⟨a, _, ha⟩
      by_cases hai : hasIssues a
      · rw [if_pos hai] at ha
        have ha2 := Option.some.inj ha
        have hmc : a.MissingCount = s.MissingCount := congrArg IssueDetail.missing_count ha2
        have hfc : a.FailedCount = s.FailedCount := congrArg IssueDetail.failed_count ha2
        have := of_decide_eq_true hai
        rw [hmc, hfc] at this
        exact this
      · rw [if_neg hai] at ha
        exact absurd ha (by simp)
    · intro hcond
      refine List.mem_filterMap.mpr ⟨s, hs, ?_⟩
      have hb : hasIssues s = true := decide_eq_true hcond
      rw [hb]
      rfl
  · rw [hissues, issuesFound_eq_filter_map, List.map_map, hpred]
    rfl

/-- Every one of the seven documented statuses is either completed or
running, so under documented statuses the two counters partition the list. -/
theorem completed_add_inProgress (l : List Invocation)
    (h : ∀ inv ∈ l, inv.Status ∈ definedStatuses) :
    completedCount l + inProgressCount l = l.length := by
  induction l with
  | nil => rfl
  | cons x xs ih =>
    have hx := h x (List.mem_cons_self x xs)
    have ihx := ih fun inv hi => h inv (List.mem_cons_of_mem x hi)
    simp only [definedStatuses, List.mem_cons, List.not_mem_nil, or_false] at hx
    unfold completedCount inProgressCount at ihx ⊢
    rw [List.countP_cons, List.countP_cons, List.length_cons]
    rcases hx with h1 | h1 | h1 | h1 | h1 | h1 | h1 <;>
      [(have hc : decide (x.Status ∈ completedStatuses) = false := by rw [h1]; rfl
        have hr : decide (x.Status ∈ runningStatuses) = true := by rw [h1]; rfl
        simp [hc, hr]);
       (have hc : decide (x.Status ∈ completedStatuses) = false := by rw [h1]; rfl
        have hr : decide (x.Status ∈ runningStatuses) = true := by rw [h1]; rfl
        simp [hc, hr]);
       (have hc : decide (x.Status ∈ completedStatuses) = false := by rw [h1]; rfl
        have hr : decide (x.Status ∈ runningStatuses) = true := by rw [h1]; rfl
        simp [hc, hr]);
       (have hc : decide (x.Status ∈ completedStatuses) = true := by rw [h1]; rfl
        have hr : decide (x.Status ∈ runningStatuses) = false := by rw [h1]; rfl
        simp [hc, hr]);
       (have hc : decide (x.Status ∈ completedStatuses) = true := by rw [h1]; rfl
        have hr : decide (x.Status ∈ runningStatuses) = false := by rw [h1]; rfl
        simp [hc, hr]);
       (have hc : decide (x.Status ∈ completedStatuses) = true := by rw [h1]; rfl
        have hr : decide (x.Status ∈ runningStatuses) = false := by rw [h1]; rfl
        simp [hc, hr]);
       (have hc : decide (x.Status ∈ completedStatuses) = true := by rw [h1]; rfl
        have hr : decide (x.Status ∈ runningStatuses) = false := by rw [h1]; rfl
        simp [hc, hr])] <;>
      omega

/-- The success and failed counters partition the completed counter: a
status is completed exactly when it is `Success` or in the failed status
list, and those cases are disjoint (this holds for arbitrary statuses). -/
theorem success_add_failed (l : List Invocation) :
    successCount l + failedCount l = completedCount l := by
  induction l with
  | nil => rfl
  | cons x xs ih =>
    unfold successCount failedCount completedCount at ih ⊢
    rw [List.countP_cons, List.countP_cons, List.countP_cons]
    by_cases hs : x.Status = "Success"
    · have hsd : decide (x.Status = "Success") = true := decide_eq_true hs
      have hf : decide (x.Status ∈ failedStatuses) = false := by rw [hs]; rfl
      have hc : decide (x.Status ∈ completedStatuses) = true := by rw [hs]; rfl
      simp [hsd, hf, hc]
      omega
    · have hsd : decide (x.Status = "Success") = false :=
        decide_eq_false hs
      by_cases hf : x.Status ∈ failedStatuses
      · have hfd : decide (x.Status ∈ failedStatuses) = true := decide_eq_true hf
        have hc : decide (x.Status ∈ completedStatuses) = true := by
          apply decide_eq_true
          simp only [failedStatuses, List.mem_cons, List.not_mem_nil, or_false] at hf
          rcases hf with h1 | h1 | h1 <;> rw [h1] <;> decide
        simp [hsd, hfd, hc]
        omega
      · have hfd : decide (x.Status ∈ failedStatuses) = false := decide_eq_false hf
        have hc : decide (x.Status ∈ completedStatuses) = false := by
          apply decide_eq_false
          simp only [completedStatuses, failedStatuses, List.mem_cons,
            List.not_mem_nil, or_false] at hf ⊢
          tauto
        simp [hsd, hfd, hc]
        omega

/-- When not every invocation is done and all statuses are documented, some
invocation is still in a running state. -/
theorem inProgress_pos_of_not_allDone (l : List Invocation)
    (h : ∀ inv ∈ l, inv.Status ∈ definedStatuses) (hne : l ≠ [])
    (hnd : allDoneB l = false) : 0 < inProgressCount l := by
  have hsplit := completed_add_inProgress l h
  have hle : completedCount l ≤ l.length := List.countP_le_length _
  have hpos : 0 < l.length := List.length_pos.mpr hne
  have hne2 : ¬(completedCount l = totalInstances l ∧ 0 < totalInstances l) :=
    of_decide_eq_false hnd
  unfold totalInstances at hne2
  omega

/-- C10: under the seven documented status values, the poll result's
counters satisfy completed + in-progress = total and
successful + failed = completed (absent counters read as zero, which only
happens for the empty list where all counters are zero), and
`should_continue_polling` is the negation of `all_done`. -/
theorem poll_counter_invariants (invs : List Invocation) (cid : String)
    (h : ∀ inv ∈ invs, inv.Status ∈ definedStatuses) :
    (analyze_command_status invs cid).completed_instances +
        (analyze_command_status invs cid).in_progress_instances.getD 0 =
      (analyze_command_status invs cid).total_instances ∧
      (analyze_command_status invs cid).successful_instances.getD 0 +
        (analyze_command_status invs cid).failed_instances.getD 0 =
      (analyze_command_status invs cid).completed_instances ∧
      (analyze_command_status invs cid).should_continue_polling =
        !(analyze_command_status invs cid).all_done := by
  by_cases hne : invs = []
  · subst hne
    exact ⟨rfl, rfl, rfl⟩
  · refine ⟨?_, ?_, ?_⟩
    · simp only [analyze_command_status, if_neg hne, Option.getD_some]
      have := completed_add_inProgress invs h
      unfold totalInstances
      omega
    · simp only [analyze_command_status, if_neg hne, Option.getD_some]
      exact success_add_failed invs
    · simp [analyze_command_status, hne]

/-- C10 witness: the invariants at a concrete three-invocation list. -/
theorem poll_counter_invariants_witness :
    (analyze_command_status pollSampleInvs "cmd-1").completed_instances +
        (analyze_command_status pollSampleInvs "cmd-1").in_progress_instances.getD 0 =
      (analyze_command_status pollSampleInvs "cmd-1").total_instances ∧
      (analyze_command_status pollSampleInvs "cmd-1").successful_instances.getD 0 +
        (analyze_command_status pollSampleInvs "cmd-1").failed_instances.getD 0 =
      (analyze_command_status pollSampleInvs "cmd-1").completed_instances ∧
      (analyze_command_status pollSampleInvs "cmd-1").should_continue_polling =
        !(analyze_command_status pollSampleInvs "cmd-1").all_done :=
  poll_counter_invariants pollSampleInvs "cmd-1" (by decide)

/-- C9 counterexample: with two failed and one in-progress invocation the
failed fraction is 2/3 > 50%, yet the overall status tag is not
MAJORITY_FAILED (it is IN_PROGRESS), so MAJORITY_FAILED does not hold
exactly when the failed fraction exceeds 50%. -/
theorem poll_majority_failed_counterexample :
    1 / 2 < failedFraction (analyze_command_status pollStuckInvs "cmd-9") ∧
      (analyze_command_status pollStuckInvs "cmd-9").status = "IN_PROGRESS" ∧
      (analyze_command_status pollStuckInvs "cmd-9").status ≠ "MAJORITY_FAILED" := by
  have hfail : (analyze_command_status pollStuckInvs "cmd-9").failed_instances =
      some 2 := rfl
  have htot : (analyze_command_status pollStuckInvs "cmd-9").total_instances = 3 := rfl
  have hst : (analyze_command_status pollStuckInvs "cmd-9").status = "IN_PROGRESS" := rfl
  refine ⟨?_, hst, ?_⟩
  · rw [failedFraction, hfail, htot]
    norm_num
  · rw [hst]
    decide

/-- C9 (amended): under the seven documented status values, the overall
status tag is one of the six listed tags, with MAJORITY_FAILED exactly when
all invocations are done and the failed fraction exceeds 50%, and
HIGH_FAILURE_RATE exactly when all invocations are done and the failed
fraction exceeds 20% but not 50%. -/
theorem poll_overall_status_characterization (invs : List Invocation) (cid : String)
    (h : ∀ inv ∈ invs, inv.Status ∈ definedStatuses) :
    (analyze_command_status invs cid).status ∈
        ["NO_INVOCATIONS", "IN_PROGRESS", "ALL_SUCCESS", "COMPLETED_WITH_FAILURES",
          "HIGH_FAILURE_RATE", "MAJORITY_FAILED"] ∧
      ((analyze_command_status invs cid).status = "MAJORITY_FAILED" ↔
        (analyze_command_status invs cid).all_done = true ∧
          1 / 2 < failedFraction (analyze_command_status invs cid)) ∧
      ((analyze_command_status invs cid).status = "HIGH_FAILURE_RATE" ↔
        (analyze_command_status invs cid).all_done = true ∧
          1 / 5 < failedFraction (analyze_command_status invs cid) ∧
          failedFraction (analyze_command_status invs cid) ≤ 1 / 2) := by
  by_cases hne : invs = []
  · subst hne
    have hst : (analyze_command_status [] cid).status = "NO_INVOCATIONS" := rfl
    have hda : (analyze_command_status [] cid).all_done = false := rfl
    refine ⟨?_, ?_, ?_⟩
    · rw [hst]
      simp
    · rw [hst]
      constructor
      · intro hx
        exact absurd hx (by decide)
      · rintro ⟨hdt, -⟩
        rw [hda] at hdt
        exact absurd hdt (by decide)
    · rw [hst]
      constructor
      · intro hx
        exact absurd hx (by decide)
      · rintro ⟨hdt, -⟩
        rw [hda] at hdt
        exact absurd hdt (by decide)
  · have hT : 0 < invs.length := List.length_pos.mpr hne
    have hTq : (0 : ℚ) < (invs.length : ℚ) := by exact_mod_cast hT
    have hfrac : failedFraction (analyze_command_status invs cid) =
        (failedCount invs : ℚ) / (invs.length : ℚ) := by
      simp [failedFraction, analyze_command_status, hne, totalInstances]
    have hstat : (analyze_command_status invs cid).status = overallStatus invs := by
      simp [analyze_command_status, hne]
    have hdone : (analyze_command_status invs cid).all_done = allDoneB invs := by
      simp [analyze_command_status, hne]
    have hrate : rawFailureRate invs =
        (failedCount invs : ℚ) / (invs.length : ℚ) * 100 := by
      simp [rawFailureRate, totalInstances, hT]
    have h50 : 50 < rawFailureRate invs ↔
        1 / 2 < (failedCount invs : ℚ) / (invs.length : ℚ) := by
      rw [hrate]
      constructor <;> intro hx <;> linarith
    have h20 : 20 < rawFailureRate invs ↔
        1 / 5 < (failedCount invs : ℚ) / (invs.length : ℚ) := by
      rw [hrate]
      constructor <;> intro hx <;> linarith
    rw [hstat, hdone, hfrac]
    unfold overallStatus
    by_cases hd : allDoneB invs = true
    · rw [if_pos hd]
      by_cases hf50 : 50 < rawFailureRate invs
      · rw [if_pos hf50]
        refine ⟨by decide, ⟨fun _ => ⟨hd, h50.mp hf50⟩, fun _ => rfl⟩, ?_⟩
        constructor
        · intro hx
          exact absurd hx (by decide)
        · rintro ⟨-, -, hle⟩
          have := h50.mp hf50
          linarith
      · rw [if_neg hf50]
        have hle : (failedCount invs : ℚ) / (invs.length : ℚ) ≤ 1 / 2 :=
          le_of_not_lt fun hx => hf50 (h50.mpr hx)
        by_cases hf20 : 20 < rawFailureRate invs
        · rw [if_pos hf20]
          refine ⟨by decide, ?_, ⟨fun _ => ⟨hd, h20.mp hf20, hle⟩, fun _ => rfl⟩⟩
          constructor
          · intro hx
            exact absurd hx (by decide)
          · rintro ⟨-, hgt⟩
            linarith
        · rw [if_neg hf20]
          have hle2 : (failedCount invs : ℚ) / (invs.length : ℚ) ≤ 1 / 5 :=
            le_of_not_lt fun hx => hf20 (h20.mpr hx)
          by_cases hf0 : 0 < rawFailureRate invs
          · rw [if_pos hf0]
            refine ⟨by decide, ?_, ?_⟩
            · constructor
              · intro hx
                exact absurd hx (by decide)
              · rintro ⟨-, hgt⟩
                linarith
            · constructor
              · intro hx
                exact absurd hx (by decide)
              · rintro ⟨-, hgt, -⟩
                linarith
          · rw [if_neg hf0]
            refine ⟨by decide, ?_, ?_⟩
            · constructor
              · intro hx
                exact absurd hx (by decide)
              · rintro ⟨-, hgt⟩
                linarith
            · constructor
              · intro hx
                exact absurd hx (by decide)
              · rintro ⟨-, hgt, -⟩
                linarith
    · rw [if_neg hd]
      have hdf : allDoneB invs = false := by
        cases hb : allDoneB invs
        · rfl
        · exact absurd hb hd
      have hip : 0 < inProgressCount invs :=
        inProgress_pos_of_not_allDone invs h hne hdf
      rw [if_pos hip]
      refine ⟨by decide, ?_, ?_⟩
      · constructor
        · intro hx
          exact absurd hx (by decide)
        · rintro ⟨hdt, -⟩
          exact absurd hdt hd
      · constructor
        · intro hx
          exact absurd hx (by decide)
        · rintro ⟨hdt, -⟩
          exact absurd hdt hd

/-- C9 witness: the characterization at a concrete three-invocation list
(one success, one in progress, one failed). -/
theorem poll_overall_status_characterization_witness :
    (analyze_command_status pollSampleInvs "cmd-2").status ∈
        ["NO_INVOCATIONS", "IN_PROGRESS", "ALL_SUCCESS", "COMPLETED_WITH_FAILURES",
          "HIGH_FAILURE_RATE", "MAJORITY_FAILED"] ∧
      ((analyze_command_status pollSampleInvs "cmd-2").status = "MAJORITY_FAILED" ↔
        (analyze_command_status pollSampleInvs "cmd-2").all_done = true ∧
          1 / 2 < failedFraction (analyze_command_status pollSampleInvs "cmd-2")) ∧
      ((analyze_command_status pollSampleInvs "cmd-2").status = "HIGH_FAILURE_RATE" ↔
        (analyze_command_status pollSampleInvs "cmd-2").all_done = true ∧
          1 / 5 < failedFraction (analyze_command_status pollSampleInvs "cmd-2") ∧
          failedFraction (analyze_command_status pollSampleInvs "cmd-2") ≤ 1 / 2) :=
  poll_overall_status_characterization pollSampleInvs "cmd-2" (by decide)

/-- C5: when `roleArn` or `region` is missing from the dispatch event, the
handler raises `ValueError("roleArn and region are required")` and issues
no AWS request at all, so it fails before any credential is obtained or
any command is sent. -/
theorem dispatch_missing_required_fails (event : SendEvent) (commandId : Option String)
    (h : event.roleArn = none ∨ event.region = none) :
    sendSsmHandler event commandId =
      ([], Except.error "roleArn and region are required") := by
  unfold sendSsmHandler
  rcases h with h | h <;> simp [h]

/-- C5 witness: an event carrying a region but no role ARN. -/
theorem dispatch_missing_required_fails_witness :
    sendSsmHandler { region := some "us-east-1" } none =
      ([], Except.error "roleArn and region are required") :=
  dispatch_missing_required_fails { region := some "us-east-1" } none (Or.inl rfl)

/-- C6 counterexample: when the event omits `documentName`, the dispatched
command's document name is "AWS-RunPatchBaseline", not "RunPatchBaseline"
as the claim states. -/
theorem dispatch_default_document_counterexample :
    (sentKwargs (sendSsmHandler c6Event (some "cmd-1")).1).map
        SendCommandKwargs.DocumentName = some "AWS-RunPatchBaseline" ∧
      (sentKwargs (sendSsmHandler c6Event (some "cmd-1")).1).map
        SendCommandKwargs.DocumentName ≠ some "RunPatchBaseline" := by
  refine ⟨rfl, by decide⟩

/-- C6 (amended): when the dispatch event has a non-empty `roleArn` and
`region` but omits `documentName`, the command is dispatched with document
name "AWS-RunPatchBaseline"; when it omits `maxConcurrency` the value
"10%" is used, and when it omits `maxErrors` the value "1" is used. -/
theorem dispatch_defaults (event : SendEvent) (commandId : Option String)
    (hrole : event.roleArn.getD "" ≠ "") (hregion : event.region.getD "" ≠ "") :
    (event.documentName = none →
      (sentKwargs (sendSsmHandler event commandId).1).map
        SendCommandKwargs.DocumentName = some "AWS-RunPatchBaseline") ∧
    (event.maxConcurrency = none →
      (sentKwargs (sendSsmHandler event commandId).1).map
        SendCommandKwargs.MaxConcurrency = some "10%") ∧
    (event.maxErrors = none →
      (sentKwargs (sendSsmHandler event commandId).1).map
        SendCommandKwargs.MaxErrors = some "1") := by
  unfold sendSsmHandler
  have hcond : ¬(event.roleArn.getD "" = "" ∨ event.region.getD "" = "") := by
    tauto
  rw [if_neg hcond]
  refine ⟨?_, ?_, ?_⟩ <;> intro hnone <;>
    simp [sentKwargs, sendCommandKwargs, hnone, List.findSome?]

/-- C6 amended-claim witness: the defaults at a concrete minimal event. -/
theorem dispatch_defaults_witness :
    ((c6Event.documentName = none →
      (sentKwargs (sendSsmHandler c6Event (some "cmd-1")).1).map
        SendCommandKwargs.DocumentName = some "AWS-RunPatchBaseline") ∧
    (c6Event.maxConcurrency = none →
      (sentKwargs (sendSsmHandler c6Event (some "cmd-1")).1).map
        SendCommandKwargs.MaxConcurrency = some "10%") ∧
    (c6Event.maxErrors = none →
      (sentKwargs (sendSsmHandler c6Event (some "cmd-1")).1).map
        SendCommandKwargs.MaxErrors = some "1")) :=
  dispatch_defaults c6Event (some "cmd-1") (by decide) (by decide)

/-- C7 counterexample: an input with a valid accounts list but no regions
key passes validation (regions falls back to the default region), so the
step does not require the regions list. -/
theorem verify_regions_not_required_counterexample :
    c7Event.regions = none ∧
      validate_input c7Event c7Env 0 = Except.ok
        { accounts := ["123456789012"]
          regions := ["us-east-1"]
          bucket_name := "bucket"
          ddb_table := "table"
          execution_id := "exec-0" } :=
  ⟨rfl, rfl⟩

/-- C7 (amended): the inventory/verify step requires the accounts list
(regions falls back to the environment's default region when absent), and
rejects any input in which some account id is not a 12-digit numeric
string; in both failure cases validation fails and the handler returns a
400 result having processed no target, hence before any remote call. -/
theorem verify_validation_rejects (event : VerifyEvent) (env : VerifyEnv) (now : Nat)
    (today : String) (pipeline : String → String → Except PyExc (List PatchState)) :
    (event.accounts.getD [] = [] →
      validate_input event env now = Except.error "Missing or invalid accounts list") ∧
      (∀ a ∈ event.accounts.getD [], isValidAccountId a = false →
        ∃ b, validate_input event env now =
            Except.error ("Invalid account ID format: " ++ b) ∧
          isValidAccountId b = false) ∧
      ((∃ e, validate_input event env now = Except.error e) →
        (postVerifyHandler event env now today pipeline).statusCode = 400 ∧
          (postVerifyHandler event env now today pipeline).results = []) := by
  refine ⟨?_, ?_, ?_⟩
  · intro hempty
    unfold validate_input
    rw [hempty]
    rfl
  · intro a ha hbad
    have hne : ¬(event.accounts.getD [] = []) := by
      intro hx
      rw [hx] at ha
      exact absurd ha (List.not_mem_nil a)
    have hfind : ((event.accounts.getD []).find? fun x => !isValidAccountId x).isSome := by
      rw [List.find?_isSome]
      exact ⟨a, ha, by rw [hbad]; rfl⟩
    obtain ⟨b, hb⟩ := Option.isSome_iff_exists.mp hfind
    have hbprop := List.find?_some hb
    refine ⟨b, ?_, ?_⟩
    · unfold validate_input
      rw [if_neg hne, hb]
    · cases hv : isValidAccountId b
      · rfl
      · rw [hv] at hbprop
        exact absurd hbprop (by decide)
  · rintro ⟨e, he⟩
    unfold postVerifyHandler
    rw [he]
    exact ⟨rfl, rfl⟩

/-- C7 amended-claim witness: a 5-digit account id is rejected and the
handler then returns 400 having processed nothing. -/
theorem verify_validation_rejects_witness :
    (∃ b, validate_input c7BadEvent c7Env 0 =
        Except.error ("Invalid account ID format: " ++ b) ∧
      isValidAccountId b = false) ∧
      (postVerifyHandler c7BadEvent c7Env 0 "2026/10/12"
          (fun _ _ => Except.ok [])).statusCode = 400 ∧
      (postVerifyHandler c7BadEvent c7Env 0 "2026/10/12"
          (fun _ _ => Except.ok [])).results = [] := by
  have h := verify_validation_rejects c7BadEvent c7Env 0 "2026/10/12"
    (fun _ _ => Except.ok [])
  have hex := h.2.1 "12345" (by decide) (by decide)
  refine ⟨hex, ?_⟩
  obtain ⟨b, hb, -⟩ := hex
  exact h.2.2 ⟨_, hb⟩

/-- C8: once validation succeeds, the handler processes every
account × region target, the result list is exactly the per-target results
in order (so one target's pipeline failure does not remove any sibling
target), a pipeline failure is captured in that target's own result as an
unsuccessful entry carrying the error, and the step returns a structured
200 response rather than propagating the failure. -/
theorem verify_partial_failure_isolated (event : VerifyEvent) (env : VerifyEnv)
    (now : Nat) (today : String)
    (pipeline : String → String → Except PyExc (List PatchState))
    (v : ValidatedInput) (hv : validate_input event env now = Except.ok v) :
    (postVerifyHandler event env now today pipeline).statusCode = 200 ∧
      (postVerifyHandler event env now today pipeline).results =
        (v.accounts.flatMap fun account => v.regions.map fun region =>
          process_account_region pipeline today account region) ∧
      (∀ account region e, pipeline account region = Except.error e →
        process_account_region pipeline today account region =
          { account := account
            region := region
            success := false
            analysis := none
            s3_key := none
            error := some e.message
            error_type := some e.name }) ∧
      (∀ account ∈ v.accounts, ∀ region ∈ v.regions,
        process_account_region pipeline today account region ∈
          (postVerifyHandler event env now today pipeline).results) := by
  have hres : (postVerifyHandler event env now today pipeline).results =
      (v.accounts.flatMap fun account => v.regions.map fun region =>
        process_account_region pipeline today account region) := by
    unfold postVerifyHandler
    rw [hv]
  have hcode : (postVerifyHandler event env now today pipeline).statusCode = 200 := by
    unfold postVerifyHandler
    rw [hv]
  refine ⟨hcode, hres, ?_, ?_⟩
  · intro account region e he
    unfold process_account_region
    rw [he]
  · intro account ha region hr
    rw [hres]
    refine List.mem_flatMap.mpr ⟨account, ha, List.mem_map.mpr ⟨region, hr, rfl⟩⟩

/-- C8 witness: with two accounts, the second target's pipeline failure is
recorded in its own result, the sibling is still processed, and the
response is a structured 200. -/
theorem verify_partial_failure_isolated_witness :
    (postVerifyHandler c8Event c7Env 0 "2026/10/12" c8Pipeline).statusCode = 200 ∧
      process_account_region c8Pipeline "2026/10/12" "123456789012" "us-east-1" ∈
        (postVerifyHandler c8Event c7Env 0 "2026/10/12" c8Pipeline).results ∧
      process_account_region c8Pipeline "2026/10/12" "210987654321" "us-east-1" ∈
        (postVerifyHandler c8Event c7Env 0 "2026/10/12" c8Pipeline).results ∧
      process_account_region c8Pipeline "2026/10/12" "210987654321" "us-east-1" =
        { account := "210987654321"
          region := "us-east-1"
          success := false
          analysis := none
          s3_key := none
          error := some "Access denied"
          error_type := some "PostVerificationError" } := by
  have h := verify_partial_failure_isolated c8Event c7Env 0 "2026/10/12" c8Pipeline
    c8Validated rfl
  exact ⟨h.1,
    h.2.2.2 "123456789012" (by decide) "us-east-1" (by decide),
    h.2.2.2 "210987654321" (by decide) "us-east-1" (by decide),
    h.2.2.1 "210987654321" "us-east-1"
      { name := "PostVerificationError", message := "Access denied" } rfl⟩

/-- C3: the authorizer accepts a callback whose sig equals the keyed hash
of `token ':' timestamp ':' action ':' executionId` under the signing
secret when the timestamp is within the expiry window (given the required
fields are non-blank); it rejects any request whose signature differs from
that value in any way — in particular in a single bit, which yields a
different digest string; and it rejects any request whose timestamp lies
outside the expiry window regardless of the signature. -/
theorem approval_signature_verification (mac : String → String → String)
    (secret : String) (now max_age_minutes : Int) (q : AuthQuery) :
    (∀ ts_int : Int,
      pyStrip (q.token.getD "") ≠ "" →
      pyStrip (q.action.getD "") ≠ "" →
      pyInt? (pyStrip (q.timestamp.getD "")) = some ts_int →
      |now - ts_int| ≤ max_age_minutes * 60 →
      pyStrip (q.sig.getD "") ≠ "" →
      pyStrip (q.sig.getD "") =
        mac secret (buildCanonicalString (pyStrip (q.token.getD ""))
          (pyStrip (q.timestamp.getD "")) (pyStrip (q.action.getD ""))
          (pyStrip (q.executionId.getD ""))) →
      (approvalAuthorizer mac secret now max_age_minutes q).isAuthorized = true) ∧
      (pyStrip (q.sig.getD "") ≠
        mac secret (buildCanonicalString (pyStrip (q.token.getD ""))
          (pyStrip (q.timestamp.getD "")) (pyStrip (q.action.getD ""))
          (pyStrip (q.executionId.getD ""))) →
      (approvalAuthorizer mac secret now max_age_minutes q).isAuthorized = false) ∧
      (∀ ts_int : Int,
        pyInt? (pyStrip (q.timestamp.getD "")) = some ts_int →
        max_age_minutes * 60 < |now - ts_int| →
        (approvalAuthorizer mac secret now max_age_minutes q).isAuthorized = false) := by
  refine ⟨?_, ?_, ?_⟩
  · intro ts_int htok hact hts hfresh hsigne hsigeq
    have htsne : pyStrip (q.timestamp.getD "") ≠ "" := by
      intro hx
      rw [hx] at hts
      exact Option.noConfusion hts
    have hcond1 : ¬(pyStrip (q.sig.getD "") = "" ∨ pyStrip (q.token.getD "") = "" ∨
        pyStrip (q.timestamp.getD "") = "" ∨ pyStrip (q.action.getD "") = "") := by
      push_neg
      exact ⟨hsigne, htok, htsne, hact⟩
    have hfresh2 : ¬(max_age_minutes * 60 < |now - ts_int|) := not_lt.mpr hfresh
    have hsig2 : ¬¬(mac secret (buildCanonicalString (pyStrip (q.token.getD ""))
        (pyStrip (q.timestamp.getD "")) (pyStrip (q.action.getD ""))
        (pyStrip (q.executionId.getD ""))) = pyStrip (q.sig.getD "")) :=
      not_not_intro hsigeq.symm
    unfold approvalAuthorizer
    rw [if_neg hcond1]
    simp only [hts]
    rw [if_neg hfresh2, if_neg hsig2]
  · intro hsig
    unfold approvalAuthorizer
    by_cases h1 : pyStrip (q.sig.getD "") = "" ∨ pyStrip (q.token.getD "") = "" ∨
        pyStrip (q.timestamp.getD "") = "" ∨ pyStrip (q.action.getD "") = ""
    · rw [if_pos h1]
    · rw [if_neg h1]
      cases hmatch : pyInt? (pyStrip (q.timestamp.getD "")) with
      | none => simp only [hmatch]
      | some t =>
        simp only [hmatch]
        by_cases h3 : max_age_minutes * 60 < |now - t|
        · rw [if_pos h3]
        · rw [if_neg h3, if_pos fun hx => hsig hx.symm]
  · intro ts_int hts hstale
    unfold approvalAuthorizer
    by_cases h1 : pyStrip (q.sig.getD "") = "" ∨ pyStrip (q.token.getD "") = "" ∨
        pyStrip (q.timestamp.getD "") = "" ∨ pyStrip (q.action.getD "") = ""
    · rw [if_pos h1]
    · rw [if_neg h1]
      simp only [hts]
      rw [if_pos hstale]

/-- C3 witness: a link signed by the sender model verifies when fresh. -/
theorem approval_signature_verification_witness :
    (approvalAuthorizer macConcat "sekrit" 1000 60 c3Query).isAuthorized = true :=
  (approval_signature_verification macConcat "sekrit" 1000 60 c3Query).1 1000
    (by decide) (by decide) (by decide) (by decide) (by decide) (by decide)
